import Mathlib

/-!
Shallow embedding of the STACS recursive artifact expansion and scanning
pipeline (stacscan/stacs), covering the Magic Classifier
(`stacs/scan/loader/archive.py`), the Discovery metadata/finder loop
(`stacs/scan/loader/filepath.py`), the Sampler (`stacs/scan/scanner/rules.py`),
the CLI exit-code logic (`stacs/scan/entrypoint/cli.py`), the XAR extractor
(`stacs/scan/loader/format/xar.py`), the Suppressor
(`stacs/scan/filter/ignore_list.py`) and the ignore-list entry validation
(`stacs/scan/model/ignore_list.py`, pydantic 1.10.2 semantics).

Bytes are modelled as `Nat` values (each < 256 in the concrete inputs used);
files and chunks are `List Nat`.  Fallible Python code is modelled with
`Except`.
-/

namespace Stacs

/-- Python run-time errors relevant to the embedded code paths. -/
inductive PyErr where
  | fileAccess      -- stacs FileAccessException
  | invalidFile     -- stacs InvalidFileException
  | nameError       -- Python NameError (unbound local)
  | typeError       -- Python TypeError (e.g. wrong number of arguments)
  deriving DecidableEq, Repr

/-- `CHUNK_SIZE` from `stacs/scan/constants.py`. -/
def CHUNK_SIZE : Nat := 65536

/-- `WINDOW_SIZE` from `stacs/scan/constants.py`. -/
def WINDOW_SIZE : Nat := 20

/-- `EXIT_CODE_UNSUPPRESSED` from `stacs/scan/constants.py`. -/
def EXIT_CODE_UNSUPPRESSED : Nat := 100

/-- Normalise one bound of a Python slice `l[a:b]` for a list of length `n`:
a negative index counts from the end and is clamped at 0; a non-negative
index is clamped at `n`. -/
def pyIndex (n : Nat) (i : Int) : Nat :=
  if i < 0 then ((n : Int) + i).toNat else min n i.toNat

/-- Python slice `l[a:b]` (step 1), including negative-index semantics.
Used to model `chunk[offset : offset + len(format)]` in `get_mimetype`. -/
def pySlice (l : List Nat) (a b : Int) : List Nat :=
  (l.take (pyIndex l.length b)).drop (pyIndex l.length a)

/-- `fin.seek(pos); fin.read(len)` on a file whose bytes are `file`. -/
def pyReadAt (file : List Nat) (pos len : Nat) : List Nat :=
  (file.drop pos).take len

/-! ## Magic Classifier (`stacs/scan/loader/archive.py`) -/

/-- One entry of `MIME_TYPE_HANDLERS`: a MIME name, match weight, byte offset
(negative = relative to the end of the chunk) and the list of magic byte
strings.  The extractor function of each entry plays no part in
classification and is omitted. -/
structure MimeHandler where
  name : String
  weight : Nat
  offset : Int
  magic : List (List Nat)
  deriving DecidableEq, Repr

/-- The `MIME_TYPE_HANDLERS` table, in Python dict insertion order
(declaration order in `archive.py`). -/
def MIME_TYPE_HANDLERS : List MimeHandler := [
  ⟨"application/x-tar", 1, 257, [[0x75, 0x73, 0x74, 0x61, 0x72]]⟩,
  ⟨"application/gzip", 1, 0, [[0x1F, 0x8B]]⟩,
  ⟨"application/x-bzip2", 1, 0, [[0x42, 0x5A, 0x68]]⟩,
  ⟨"application/zip", 1, 0,
    [[0x50, 0x4B, 0x03, 0x04], [0x50, 0x4B, 0x05, 0x06], [0x50, 0x4B, 0x07, 0x08]]⟩,
  ⟨"application/zlib", 1, 0,
    [[0x78, 0x01], [0x78, 0x5E], [0x78, 0x9C], [0x78, 0xDA]]⟩,
  ⟨"application/x-xz", 1, 0, [[0xFD, 0x37, 0x7A, 0x58, 0x5A, 0x00]]⟩,
  ⟨"application/x-rpm", 1, 0, [[0xED, 0xAB, 0xEE, 0xDB]]⟩,
  ⟨"application/x-iso9660-image", 1, 0x8001, [[0x43, 0x44, 0x30, 0x30, 0x31]]⟩,
  ⟨"application/x-7z-compressed", 1, 0, [[0x37, 0x7A, 0xBC, 0xAF, 0x27, 0x1C]]⟩,
  ⟨"application/x-cpio", 1, 0,
    [[0xC7, 0x71], [0x71, 0xC7],
     [0x30, 0x37, 0x30, 0x37, 0x30, 0x31],
     [0x30, 0x37, 0x30, 0x37, 0x30, 0x32],
     [0x30, 0x37, 0x30, 0x37, 0x30, 0x37]]⟩,
  ⟨"application/x-xar", 1, 0, [[0x78, 0x61, 0x72, 0x21]]⟩,
  ⟨"application/vnd.ms-cab-compressed", 1, 0, [[0x4D, 0x53, 0x43, 0x46]]⟩,
  ⟨"application/x-archive", 1, 0, [[0x21, 0x3C, 0x61, 0x72, 0x63, 0x68, 0x3E]]⟩,
  ⟨"application/vnd.rar", 1, 0, [[0x52, 0x61, 0x72, 0x21, 0x1A, 0x07]]⟩,
  ⟨"application/zstd", 1, 0, [[0x28, 0xB5, 0x2F, 0xFD]]⟩,
  ⟨"application/x-apple-diskimage", 2, -512, [[0x6B, 0x6F, 0x6C, 0x79]]⟩]

/-- The inner loop of `get_mimetype`:
`for format in magic: if chunk[offset:offset+len(format)] == format: return ...`. -/
def matchMagics (chunk : List Nat) (offset : Int) : List (List Nat) → Bool
  | [] => false
  | m :: ms =>
      (pySlice chunk offset (offset + (m.length : Int))) == m || matchMagics chunk offset ms

/-- The descriptor loop of `get_mimetype` over an explicit handler list.
`if not start and offset >= 0: continue` skips non-negative offsets on tail
chunks; each remaining descriptor's magics are tried in order, and the first
magic match returns `(weight, name)`. -/
def getMimetypeGo (chunk : List Nat) (start : Bool) :
    List MimeHandler → Nat × Option String
  | [] => (0, none)
  | h :: hs =>
      if !start && h.offset ≥ 0 then getMimetypeGo chunk start hs
      else if matchMagics chunk h.offset h.magic then (h.weight, some h.name)
      else getMimetypeGo chunk start hs

/-- `get_mimetype(chunk, start)` from `stacs/scan/loader/archive.py`. -/
def get_mimetype (chunk : List Nat) (start : Bool) : Nat × Option String :=
  getMimetypeGo chunk start MIME_TYPE_HANDLERS

/-- A descriptor is considered for a chunk iff
`not (not start and offset >= 0)`, i.e. on head chunks always, on tail chunks
only when the offset is negative. -/
def handlerGated (start : Bool) (h : MimeHandler) : Bool :=
  start || h.offset < 0

/-- A descriptor matches a chunk when one of its magics matches at its offset. -/
def handlerMatches (chunk : List Nat) (h : MimeHandler) : Bool :=
  matchMagics chunk h.offset h.magic

/-- The 'koly' DMG trailer magic. -/
def kolyBytes : List Nat := [0x6B, 0x6F, 0x6C, 0x79]

/-- Head chunk that matches both the gzip descriptor (weight 1, declared
second) and the DMG descriptor (weight 2, declared last): bytes `1F 8B` at
offset 0 and `koly` at `chunk[-512:-508]` (positions 2..5 of this
514-byte chunk). -/
def gzKolyChunk : List Nat :=
  [0x1F, 0x8B, 0x6B, 0x6F, 0x6C, 0x79] ++ List.replicate 508 0

/-- A 512-byte head chunk beginning with `koly`: under Python's negative
slicing, `chunk[-512:-508]` is `chunk[0:4]`, so the DMG descriptor matches
even with `start = true`. -/
def kolyHeadChunk : List Nat := kolyBytes ++ List.replicate 508 0

/-- The S5 scenario file: a 100 KiB blob whose last 512 bytes begin with
`koly` (zero elsewhere). -/
def s5blob : List Nat :=
  List.replicate 101888 0 ++ (kolyBytes ++ List.replicate 508 0)

/-- First `CHUNK_SIZE` bytes of the S5 blob (head chunk). -/
def s5head : List Nat := s5blob.take CHUNK_SIZE

/-- Last `CHUNK_SIZE` bytes of the S5 blob (tail chunk). -/
def s5tail : List Nat := s5blob.drop (102400 - CHUNK_SIZE)

/-! ## Discovery Engine (`stacs/scan/loader/filepath.py`) -/

/-- `stacs.scan.model.manifest.Entry` (the Artifact record produced by a
metadata job). -/
structure ManifestEntry where
  path : String
  overlay : Option String
  md5 : String
  mime : Option String
  deriving DecidableEq, Repr

/-- The `while chunk := fin.read(CHUNK_SIZE)` chunking of a file, with an
explicit fuel argument (`file.length` steps always suffice, since each
iteration drops at least one byte). -/
def chunksOfAux : Nat → List Nat → List (List Nat)
  | 0, _ => []
  | _, [] => []
  | fuel + 1, file => file.take CHUNK_SIZE :: chunksOfAux fuel (file.drop CHUNK_SIZE)

/-- The sequence of chunks `metadata` reads from a file. -/
def chunksOf (file : List Nat) : List (List Nat) := chunksOfAux file.length file

/-- The chunk loop of `metadata` (filepath.py lines 30-35).  `tell` models
`fin.tell()` (bytes consumed so far).  On the first chunk `mime` is `None`
and `fin.tell() <= CHUNK_SIZE`, so the guarded branch runs
`mime = archive.get_mimetype(chunk)`.  That call passes a single positional
argument to `get_mimetype(chunk: bytes, start: bool)` (archive.py line 328),
which has no default for `start`, so Python raises
`TypeError: get_mimetype() missing 1 required positional argument`; the
`except OSError` handler does not catch `TypeError`, so the error escapes
`metadata`.  The `.error .typeError` below is that call site. -/
def metadataGo : Nat → Option String → List (List Nat) → Except PyErr (Option String)
  | _, mime, [] => .ok mime
  | tell, mime, c :: cs =>
      let tell' := tell + c.length
      if mime.isNone && tell' ≤ CHUNK_SIZE then .error .typeError
      else metadataGo tell' mime cs

/-- `metadata(filepath, overlay)` from filepath.py, on a file whose bytes are
`file`.  `md5hex` abstracts `hashlib.md5(...).hexdigest()`. -/
def metadata (md5hex : List Nat → String) (path : String) (file : List Nat)
    (overlay : Option String) : Except PyErr ManifestEntry :=
  match metadataGo 0 none (chunksOf file) with
  | .error e => .error e
  | .ok mime => .ok ⟨path, overlay, md5hex file, mime⟩

/-- The completion loop of `finder` (filepath.py lines 103-153), restricted to
completion sequences in which no completed entry is an archive (the handler
lookup `MIME_TYPE_HANDLERS.get(result.mime, {}).get("handler")` yields
nothing, so no new jobs are submitted).  Each job either completed with a
`ManifestEntry` (`.ok`) or raised `FileAccessException` (`.error ()`).
`last` models the Python local variable `result`, which keeps its value from
the previous iteration: when `future.result()` raises and `skip_on_eacces` is
set, the loop body falls through to `entries.append(result)` with no
`continue`, appending the previous job's result again — or raising
`NameError` if no job has succeeded yet. -/
def finderLoop (skip : Bool) (last : Option ManifestEntry) (acc : List ManifestEntry) :
    List (Except Unit ManifestEntry) → Except PyErr (List ManifestEntry)
  | [] => .ok acc
  | .ok e :: rest => finderLoop skip (some e) (acc ++ [e]) rest
  | .error _ :: rest =>
      if skip then
        match last with
        | none => .error .nameError
        | some r => finderLoop skip last (acc ++ [r]) rest
      else .error .fileAccess

/-- `finder` driver over a completion sequence (see `finderLoop`). -/
def finder (skip : Bool) (jobs : List (Except Unit ManifestEntry)) :
    Except PyErr (List ManifestEntry) :=
  finderLoop skip none [] jobs

/-! ## Sampler (`stacs/scan/scanner/rules.py`, `generate_sample`) -/

/-- The three byte windows read by `generate_sample` (before base64/UTF-8
rendering). -/
structure SampleBytes where
  before : List Nat
  finding : List Nat
  after : List Nat
  deriving DecidableEq, Repr

/-- `generate_sample(target, offset, size)` from rules.py lines 46-103, at the
byte level: `target_sz = os.stat(...).st_size`; the before window is
`[before_offset, before_offset + before_sz)`; the match itself is re-read at
`offset`; the after window is `[after_offset, after_offset + after_sz)`,
with `after_offset = offset + after_sz` in the unclamped branch and
`after_offset = after_sz = target_sz - offset` in the clamped branch.
`offset` is a yara match offset, hence `0 ≤ offset ≤ target_sz`. -/
def generate_sample (file : List Nat) (offset size : Nat) : SampleBytes :=
  let target_sz := file.length
  let before_sz := if offset < WINDOW_SIZE then offset else WINDOW_SIZE
  let before_offset := if offset < WINDOW_SIZE then 0 else offset - WINDOW_SIZE
  let after_sz := if offset + WINDOW_SIZE > target_sz then target_sz - offset else WINDOW_SIZE
  let after_offset :=
    if offset + WINDOW_SIZE > target_sz then target_sz - offset else offset + WINDOW_SIZE
  { before := pyReadAt file before_offset before_sz
    finding := pyReadAt file offset size
    after := pyReadAt file after_offset after_sz }

/-- The after window the specification prescribes: `min(WINDOW_SIZE,
N − offset − len(match))` bytes beginning at `offset + len(match)`. -/
def specAfterWindow (file : List Nat) (offset size : Nat) : List Nat :=
  pyReadAt file (offset + size) (min WINDOW_SIZE (file.length - offset - size))

/-! ## Finding model (`stacs/scan/model/finding.py`) and Suppressor
(`stacs/scan/filter/ignore_list.py`) -/

/-- `finding.Location`. -/
structure Location where
  line : Option Nat
  offset : Int
  deriving DecidableEq, Repr

/-- `finding.Source`. -/
structure Source where
  module : String
  description : Option String
  reference : String
  version : Option String
  deriving DecidableEq, Repr

/-- `finding.Sample` (post-rendering, as carried by a Finding). -/
structure Sample where
  window : Nat
  before : String
  after : String
  finding : String
  binary : Bool
  deriving DecidableEq, Repr

/-- `finding.Ignore`. -/
structure Ignore where
  ignored : Bool
  reason : String
  deriving DecidableEq, Repr

/-- `finding.Entry` — one Finding.  The suppressor dereferences
`finding.source.module`, `finding.source.reference` and
`finding.location.offset`, so `source` and `location` are modelled as
present (they are always set by the Rule Engine Driver that creates
Findings). -/
structure FindingEntry where
  path : String
  md5 : String
  confidence : Nat
  location : Location
  sample : Sample
  source : Source
  ignore : Option Ignore
  deriving DecidableEq, Repr

/-- `ignore_list.Entry` — one ignore-list entry, post-validation.  `module`
defaults to `"rules"`; `references` defaults to `[]`. -/
structure IgnoreEntry where
  path : Option String
  pattern : Option String
  reason : String
  md5 : Option String
  module : String
  references : List String
  offset : Option Int
  deriving DecidableEq, Repr

/-- Python truthiness of an `Optional[str]`: `None` and `""` are falsy. -/
def pyTruthyStr (o : Option String) : Bool := o.getD "" != ""

/-- Python truthiness of an `Optional[int]`: `None` and `0` are falsy. -/
def pyTruthyInt (o : Option Int) : Bool := o.getD 0 != 0

/-- `by_path(finding, ignore)` from filter/ignore_list.py. -/
def by_path (f : FindingEntry) (e : IgnoreEntry) : Bool :=
  if !pyTruthyStr e.path then false
  else if e.path == some f.path then
    if f.source.module != e.module then false
    else if e.references != [] then e.references.contains f.source.reference
    else if e.offset != none then some f.location.offset == e.offset
    else true
  else false

/-- `by_pattern(finding, ignore)`.  `research pattern path` abstracts
`re.search(pattern, path)`; `.error ()` is `re.error` (invalid pattern),
which `process` converts into an `IgnoreListException`. -/
def by_pattern (research : String → String → Except Unit Bool)
    (f : FindingEntry) (e : IgnoreEntry) : Except Unit Bool :=
  if !pyTruthyStr e.pattern then .ok false
  else
    match research (e.pattern.getD "") f.path with
    | .error u => .error u
    | .ok m =>
        if m then
          if e.module != f.source.module then .ok false
          else if e.references != [] then .ok (e.references.contains f.source.reference)
          else if e.offset != none then .ok (some f.location.offset == e.offset)
          else .ok true
        else .ok false

/-- `by_hash(finding, ignore)`. -/
def by_hash (f : FindingEntry) (e : IgnoreEntry) : Bool :=
  if !pyTruthyStr e.md5 then false
  else if e.md5 == some f.md5 then
    if f.source.module != e.module then false
    else if e.references != [] then e.references.contains f.source.reference
    else if e.offset != none then some f.location.offset == e.offset
    else true
  else false

/-- The inner entry loop of `process` for one finding: `by_path`, then
`by_pattern`, then `by_hash`; the first hit sets
`entry.ignore = Ignore(ignored=True, reason=ignore.reason)` and breaks. -/
def processFinding (research : String → String → Except Unit Bool)
    (f : FindingEntry) : List IgnoreEntry → Except Unit FindingEntry
  | [] => .ok f
  | e :: es =>
      if by_path f e then .ok { f with ignore := some ⟨true, e.reason⟩ }
      else
        match by_pattern research f e with
        | .error u => .error u
        | .ok true => .ok { f with ignore := some ⟨true, e.reason⟩ }
        | .ok false =>
            if by_hash f e then .ok { f with ignore := some ⟨true, e.reason⟩ }
            else processFinding research f es

/-- `process(findings, ignore_list)` from filter/ignore_list.py: every finding
is appended to the output, updated or not, in input order. -/
def process (research : String → String → Except Unit Bool) :
    List FindingEntry → List IgnoreEntry → Except Unit (List FindingEntry)
  | [], _ => .ok []
  | f :: fs, es =>
      match processFinding research f es with
      | .error u => .error u
      | .ok f' =>
          match process research fs es with
          | .error u => .error u
          | .ok rest => .ok (f' :: rest)

/-- Shape check "path equality" with its field-presence guard. -/
def shapePathB (f : FindingEntry) (e : IgnoreEntry) : Bool :=
  pyTruthyStr e.path && (e.path == some f.path)

/-- Shape check "regex search" with its field-presence guard (total oracle). -/
def shapePatternB (research : String → String → Bool)
    (f : FindingEntry) (e : IgnoreEntry) : Bool :=
  pyTruthyStr e.pattern && research (e.pattern.getD "") f.path

/-- Shape check "MD5 equality" with its field-presence guard. -/
def shapeHashB (f : FindingEntry) (e : IgnoreEntry) : Bool :=
  pyTruthyStr e.md5 && (e.md5 == some f.md5)

/-- Constraint alignment shared by all three shape checks: module equality,
then the references membership if `references` is non-empty, otherwise the
offset equality if `offset` is set.  When `references` is non-empty the
offset constraint is never consulted. -/
def constraintsB (f : FindingEntry) (e : IgnoreEntry) : Bool :=
  (e.module == f.source.module) &&
  (if e.references != [] then e.references.contains f.source.reference
   else if e.offset != none then some f.location.offset == e.offset
   else true)

/-- An ignore entry matches a finding iff one of its shape checks succeeds and
the constraints align. -/
def entryMatches (research : String → String → Bool)
    (f : FindingEntry) (e : IgnoreEntry) : Bool :=
  (shapePathB f e || shapePatternB research f e || shapeHashB f e) && constraintsB f e

/-- The first-match annotation `process` applies to one finding. -/
def annotate (research : String → String → Bool)
    (es : List IgnoreEntry) (f : FindingEntry) : FindingEntry :=
  match es.find? (entryMatches research f) with
  | some e => { f with ignore := some ⟨true, e.reason⟩ }
  | none => f

/-- Lift a total regex-search oracle into the fallible interface. -/
def totalSearch (research : String → String → Bool) :
    String → String → Except Unit Bool :=
  fun p s => .ok (research p s)

/-! ## CLI exit codes (`stacs/scan/entrypoint/cli.py`, end of `main`) -/

/-- The exit-code loop (cli.py lines 158-162):
`for finding in findings: if not finding.ignore: exit_code = 100`. -/
def computeExitCode (findings : List FindingEntry) : Nat :=
  findings.foldl (fun acc f => if f.ignore == none then EXIT_CODE_UNSUPPRESSED else acc) 0

/-- Process exit status of a successful run of `main` (cli.py lines 164-181):
the `--pretty` branch calls `sys.exit(exit_code)`; the default SARIF branch
prints the document and falls off the end of `main`, so the process exits
with status 0 (the computed `exit_code` is never used there). -/
def mainExitCode (pretty : Bool) (findings : List FindingEntry) : Nat :=
  if pretty then computeExitCode findings else 0

/-! ## Ignore-list entry validation (`stacs/scan/model/ignore_list.py`).

pydantic 1.10.2 semantics: fields are validated in declaration order
(`path`, `pattern`, `reason`, `md5`, `module`, `references`, `offset`); a
validator for a field receives in `values` only the fields already validated
(those declared before it), each with its default applied when the input
omitted it; `always=True` validators run even for omitted fields. -/

/-- Raw JSON input for one ignore entry (`none` = key absent). -/
structure RawEntry where
  path : Option String
  pattern : Option String
  reason : Option String
  md5 : Option String
  module : Option String
  references : Option (List String)
  offset : Option Int
  deriving DecidableEq, Repr

/-- Validator `exclusive_path_or_pattern` on field `path`, as a function of
the validated value and the `values` entries it reads.  Since `path` is the
first declared field, `values` is empty at this point and both
`values.get("pattern")` and `values.get("md5")` are `None`. -/
def exclusive_path_or_pattern (value valuesPattern valuesMd5 : Option String) :
    Except String (Option String) :=
  if pyTruthyStr valuesPattern && pyTruthyStr value then
    .error "Either path OR pattern must be specified, not both."
  else if pyTruthyStr valuesPattern && !pyTruthyStr value && !pyTruthyStr valuesMd5 then
    .error "One of pattern, path, or md5 must be set."
  else .ok value

/-- Validator `offset_and_references_requires_module` (on `offset` and
`references`): raises iff `values.get("module")` is falsy.  `module` has
default `"rules"`, so this fires only when the input explicitly sets
`module` to the empty string. -/
def offset_and_references_requires_module (valuesModule : String) :
    Except String Unit :=
  if valuesModule == "" then .error "Module must be set for this type of ignore."
  else .ok ()

/-- Validator `offset_and_refernces_both_set` (on `offset`): raises iff the
offset value is truthy (set and non-zero) and `references` is non-empty. -/
def offset_and_references_both_set (value : Option Int)
    (valuesReferences : List String) : Except String (Option Int) :=
  if pyTruthyInt value && valuesReferences.length > 0 then
    .error "An offset cannot be combined with a list of references."
  else .ok value

/-- Construction of `ignore_list.Entry` from raw input, replaying pydantic's
field-order validation (see the section comment).  `reason` has no default
and is required. -/
def validateEntry (r : RawEntry) : Except String IgnoreEntry :=
  match exclusive_path_or_pattern r.path none none with
  | .error m => .error m
  | .ok path =>
      match r.reason with
      | none => .error "reason: field required"
      | some reason =>
          let module := r.module.getD "rules"
          let references := r.references.getD []
          match offset_and_references_requires_module module with
          | .error m => .error m
          | .ok _ =>
              match offset_and_references_requires_module module with
              | .error m => .error m
              | .ok _ =>
                  match offset_and_references_both_set r.offset references with
                  | .error m => .error m
                  | .ok offset =>
                      .ok ⟨path, r.pattern, reason, r.md5, module, references, offset⟩

/-! ## XAR extractor (`stacs/scan/loader/format/xar.py`) -/

/-- `XAR_MAGIC`. -/
def xarMagic : List Nat := [0x78, 0x61, 0x72, 0x21]

/-- Big-endian byte-string to natural. -/
def beNat (l : List Nat) : Nat := l.foldl (fun a b => a * 256 + b) 0

/-- The unpacked `>4sHHQQI` header (28 bytes; the magic field is checked
separately). -/
structure XARHeader where
  size : Nat
  version : Nat
  toc_length_compressed : Nat
  toc_length_uncompressed : Nat
  cksum_alg : Nat
  deriving DecidableEq, Repr

/-- `XAR_HEADER_SZ = struct.calcsize(">4sHHQQI")`. -/
def XAR_HEADER_SZ : Nat := 28

/-- Field extraction of `struct.unpack(XAR_HEADER, fin.read(XAR_HEADER_SZ))`. -/
def parseXARHeader (file : List Nat) : XARHeader :=
  { size := beNat (pyReadAt file 4 2)
    version := beNat (pyReadAt file 6 2)
    toc_length_compressed := beNat (pyReadAt file 8 8)
    toc_length_uncompressed := beNat (pyReadAt file 16 8)
    cksum_alg := beNat (pyReadAt file 24 4) }

/-- `XAR.__init__` up to the `zlib.decompress` / XML parse: the magic check,
the header unpack (`struct.unpack` needs exactly 28 bytes), and the ToC read
`fin.seek(self._header.size); fin.read(self._header.toc_length_uncompressed)`
(xar.py lines 68-72).  Returns the header together with the raw bytes handed
to `zlib.decompress`. -/
def xarInitRead (file : List Nat) : Except PyErr (XARHeader × List Nat) :=
  if pyReadAt file 0 4 != xarMagic then .error .invalidFile
  else if file.length < XAR_HEADER_SZ then .error .invalidFile
  else
    let hdr := parseXARHeader file
    .ok (hdr, pyReadAt file hdr.size hdr.toc_length_uncompressed)

/-- The successive chunks read by `XAR.extract`'s copy loop (xar.py lines
162-175): while `remaining > 0`, read `remaining` bytes if
`remaining - CHUNK_SIZE < 0` else `CHUNK_SIZE` bytes; the file position
advances by the bytes actually read (clamped at EOF, as in Python). -/
def extractReads (file : List Nat) (pos remaining : Nat) : List (List Nat) :=
  if remaining = 0 then []
  else if remaining < CHUNK_SIZE then [pyReadAt file pos remaining]
  else pyReadAt file pos CHUNK_SIZE ::
       extractReads file (min file.length (pos + CHUNK_SIZE)) (remaining - CHUNK_SIZE)
  termination_by remaining
  decreasing_by
    exact Nat.sub_lt (Nat.pos_of_ne_zero (by assumption)) (by decide)

/-- Streaming application of a stateful decompressor `D` (modelling
`zlib.decompressobj(wbits=zlib.MAX_WBITS | 32).decompress`) to successive
chunks, concatenating the outputs written by `fout.write`. -/
def streamDecomp {σ : Type} (D : σ → List Nat → σ × List Nat) :
    σ → List (List Nat) → List Nat
  | _, [] => []
  | s, c :: cs => (D s c).2 ++ streamDecomp D (D s c).1 cs

/-- Bytes written by `XAR.extract` for one ToC file entry with data `length`,
`offset` and encoding style: seek to
`self._header.size + self._header.toc_length_compressed + entry.offset` and
copy `entry.length` bytes in chunks, piped through the decompressor iff the
encoding style is `application/x-gzip`. -/
def xarExtractEntry {σ : Type} (D : σ → List Nat → σ × List Nat) (d0 : σ)
    (file : List Nat) (hdr : XARHeader) (encoding : Option String)
    (length offset : Nat) : List Nat :=
  let base := hdr.size + hdr.toc_length_compressed
  let reads := extractReads file (base + offset) length
  if encoding == some "application/x-gzip" then streamDecomp D d0 reads
  else reads.flatten

/-! ## Concrete fixtures used in the theorems below -/

/-- A rendered sample value (contents irrelevant to the suppressor). -/
def sampleA : Sample := ⟨20, "", "", "AKIA", false⟩

/-- A finding source from module "rules" with rule reference "R". -/
def sourceR : Source := ⟨"rules", none, "R", none⟩

/-- A finding at offset 5 of file-md5 "X" with no Ignored annotation. -/
def findingUnsuppressed : FindingEntry :=
  ⟨"/tmp/f", "X", 50, ⟨none, 5⟩, sampleA, sourceR, none⟩

/-- The same finding already carrying an Ignored annotation. -/
def findingSuppressed : FindingEntry :=
  ⟨"/tmp/f", "X", 50, ⟨none, 5⟩, sampleA, sourceR, some ⟨true, "ok"⟩⟩

/-- Two distinct metadata results for the finder-loop theorems. -/
def mEntry1 : ManifestEntry := ⟨"/tmp/a", none, "aa", none⟩

/-- Second metadata result, distinct from `mEntry1`. -/
def mEntry2 : ManifestEntry := ⟨"/tmp/b", none, "bb", none⟩

/-- Raw ignore entry: md5 shape, references ["R"], offset 0 — `offset=0` is
falsy in Python so `offset_and_refernces_both_set` does not raise. -/
def rawHashRefOffsetZero : RawEntry :=
  ⟨none, none, some "demo", some "X", none, some ["R"], some 0⟩

/-- The validated form of `rawHashRefOffsetZero`. -/
def entryHashRefOffsetZero : IgnoreEntry :=
  ⟨none, none, "demo", some "X", "rules", ["R"], some 0⟩

/-- Raw ignore entry setting both `path` and `pattern`. -/
def rawPathAndPattern : RawEntry :=
  ⟨some "/tmp/a", some "x", some "r", none, none, none, none⟩

/-- Raw ignore entry setting none of `path`, `pattern`, `md5`. -/
def rawNoShape : RawEntry := ⟨none, none, some "r", none, none, none, none⟩

/-- Raw ignore entry with `offset` set but `module` absent. -/
def rawOffsetNoModule : RawEntry :=
  ⟨none, none, some "r", some "h", none, none, some 3⟩

/-- Raw ignore entry with non-zero `offset` and non-empty `references`. -/
def rawOffsetAndRefs : RawEntry :=
  ⟨none, none, some "r", some "h", none, some ["R"], some 3⟩

/-- A 32-byte XAR file: magic, size=28, version=1, toc_comp_len=2,
toc_uncomp_len=4, cksum_alg=1, followed by the four bytes 9 8 7 6. -/
def xarDemoFile : List Nat :=
  xarMagic ++ [0, 28, 0, 1]
    ++ (List.replicate 7 0 ++ [2]) ++ (List.replicate 7 0 ++ [4])
    ++ [0, 0, 0, 1] ++ [9, 8, 7, 6]

/-- The header parsed from `xarDemoFile`. -/
def xarDemoHeader : XARHeader := ⟨28, 1, 2, 4, 1⟩

/-! # Helper lemmas -/

lemma pySlice_replicate (n : Nat) (a b : Int) :
    pySlice (List.replicate n 0) a b
      = List.replicate (min (pyIndex n b) n - pyIndex n a) 0 := by
  simp only [pySlice, List.length_replicate, List.take_replicate, List.drop_replicate]

lemma getMimetypeGo_eq_find (chunk : List Nat) (start : Bool) (l : List MimeHandler) :
    getMimetypeGo chunk start l =
      match l.find? (fun h => handlerGated start h && handlerMatches chunk h) with
      | some h => (h.weight, some h.name)
      | none => (0, none) := by
  induction l with
  | nil => rfl
  | cons h hs ih =>
      rw [getMimetypeGo, List.find?]
      by_cases hg : (!start && decide (h.offset ≥ 0)) = true
      · have hgated : handlerGated start h = false := by
          rcases Bool.and_eq_true _ _ |>.mp hg with ⟨hs1, hs2⟩
          have : start = false := by
            cases start with
            | false => rfl
            | true => simp at hs1
          subst this
          have hs2' : (0 : Int) ≤ h.offset := of_decide_eq_true hs2
          simp only [handlerGated, Bool.false_or, decide_eq_false_iff_not]
          omega
        rw [if_pos hg, hgated]
        simpa using ih
      · have hgated : handlerGated start h = true := by
          cases start with
          | true => rfl
          | false =>
            simp only [Bool.not_false, Bool.true_and, decide_eq_true_eq] at hg
            simp only [handlerGated, Bool.false_or, decide_eq_true_eq]
            omega
        rw [if_neg hg, hgated]
        by_cases hmm : matchMagics chunk h.offset h.magic = true
        · have : handlerMatches chunk h = true := hmm
          rw [if_pos hmm]
          simp [this]
        · have : handlerMatches chunk h = false := by
            simpa using hmm
          rw [if_neg hmm]
          simpa [this] using ih

lemma s5head_eq : s5head = List.replicate 65536 0 := by
  simp only [s5head, s5blob, CHUNK_SIZE, List.take_append_eq_append_take,
    List.take_replicate, List.length_replicate]
  norm_num

lemma s5tail_eq :
    s5tail = List.replicate 65024 0 ++ (kolyBytes ++ List.replicate 508 0) := by
  simp only [s5tail, s5blob, CHUNK_SIZE, List.drop_append_eq_append_drop,
    List.drop_replicate, List.length_replicate]
  norm_num

lemma s5tail_len :
    (List.replicate 65024 0 ++ (kolyBytes ++ List.replicate (508 : Nat) 0)).length
      = 65536 := by
  simp only [List.length_append, List.length_replicate, kolyBytes, List.length_cons,
    List.length_nil]

lemma pyIndex_tail_lo : pyIndex 65536 (-512) = 65024 := by decide

lemma pyIndex_tail_hi : pyIndex 65536 (-508) = 65028 := by decide

lemma s5tail_slice :
    pySlice (List.replicate 65024 0 ++ (kolyBytes ++ List.replicate 508 0)) (-512) (-508)
      = kolyBytes := by
  rw [pySlice, s5tail_len, pyIndex_tail_lo, pyIndex_tail_hi]
  rw [List.take_append_eq_append_take, List.drop_append_eq_append_drop]
  simp only [List.take_replicate, List.drop_replicate, List.length_replicate,
    List.length_take, List.take_append_eq_append_take, kolyBytes]
  norm_num

lemma getMimetype_tail_eq (chunk : List Nat) :
    get_mimetype chunk false =
      if matchMagics chunk (-512) [kolyBytes]
      then (2, some "application/x-apple-diskimage") else (0, none) := by
  simp only [get_mimetype, MIME_TYPE_HANDLERS, getMimetypeGo, kolyBytes]
  norm_num

set_option maxRecDepth 8192 in
lemma s5head_class : get_mimetype (List.replicate 65536 0) true = (0, none) := by
  simp only [get_mimetype, MIME_TYPE_HANDLERS, getMimetypeGo, matchMagics,
    pySlice_replicate]
  norm_num [pyIndex]
  decide

lemma s5tail_class :
    get_mimetype (List.replicate 65024 0 ++ (kolyBytes ++ List.replicate 508 0)) false
      = (2, some "application/x-apple-diskimage") := by
  rw [getMimetype_tail_eq]
  have hm : matchMagics (List.replicate 65024 0 ++ (kolyBytes ++ List.replicate 508 0))
      (-512) [kolyBytes] = true := by
    simp only [matchMagics, kolyBytes, List.length_cons, List.length_nil]
    rw [show ((-512 : Int) + ((4 : Nat) : Int)) = -508 by decide]
    rw [show ([0x6B, 0x6F, 0x6C, 0x79] : List Nat) = kolyBytes from rfl]
    rw [s5tail_slice]
    simp
  rw [hm]
  simp

lemma chunksOf_cons (x : Nat) (xs : List Nat) :
    chunksOf (x :: xs) = (x :: xs).take CHUNK_SIZE :: chunksOfAux xs.length ((x :: xs).drop CHUNK_SIZE) := by
  rw [chunksOf, List.length_cons, chunksOfAux]
  intro hh
  exact List.noConfusion hh

/-! # Claim theorems -/

/-- C1 (code_bug): the claim says a Discovery metadata job classifies a file
from both its head and tail `CHUNK_SIZE` chunks and tags a koly-tailed file as
`application/x-apple-diskimage`.  In the code, `metadata` (filepath.py line
35) calls `archive.get_mimetype(chunk)` with a single argument although
`get_mimetype(chunk, start)` has no default for `start`, so every metadata
job on a non-empty file raises `TypeError` at its first chunk (and the tail
chunk is never classified): no format tag is ever produced. -/
theorem C1_metadata_raises_type_error (md5hex : List Nat → String) (path : String)
    (file : List Nat) (overlay : Option String) (h : file ≠ []) :
    metadata md5hex path file overlay = .error .typeError := by
  cases file with
  | nil => exact absurd rfl h
  | cons x xs =>
      rw [metadata, chunksOf_cons, metadataGo]
      have hlen : ((x :: xs).take CHUNK_SIZE).length ≤ CHUNK_SIZE := by
        simp only [List.length_take]
        omega
      simp only [Option.isNone_none, Bool.true_and, Nat.zero_add]
      rw [if_pos (decide_eq_true hlen)]

/-- Witness for C1 at the one-byte file `[0x41]`. -/
theorem C1_metadata_raises_type_error_witness :
    ([0x41] : List Nat) ≠ [] ∧
      metadata (fun _ => "") "f" [0x41] none = .error .typeError :=
  ⟨by decide, C1_metadata_raises_type_error (fun _ => "") "f" [0x41] none (by decide)⟩

set_option maxRecDepth 100000 in
/-- C2 counterexample: `gzKolyChunk` is matched by both the weight-2 DMG
descriptor (table index 15) and the weight-1 gzip descriptor (table index 1),
yet `get_mimetype` returns the weight-1 gzip tag, not the weight-2 DMG tag:
the returned descriptor is the first matching one in declaration order, not
the highest-weight one. -/
theorem C2_counterexample :
    MIME_TYPE_HANDLERS.get? 15
        = some ⟨"application/x-apple-diskimage", 2, -512, [kolyBytes]⟩ ∧
    MIME_TYPE_HANDLERS.get? 1 = some ⟨"application/gzip", 1, 0, [[0x1F, 0x8B]]⟩ ∧
    handlerMatches gzKolyChunk ⟨"application/x-apple-diskimage", 2, -512, [kolyBytes]⟩
        = true ∧
    handlerMatches gzKolyChunk ⟨"application/gzip", 1, 0, [[0x1F, 0x8B]]⟩ = true ∧
    get_mimetype gzKolyChunk true = (1, some "application/gzip") ∧
    get_mimetype gzKolyChunk true ≠ (2, some "application/x-apple-diskimage") := by
  refine ⟨by decide, by decide, by decide, by decide, by decide, by decide⟩

/-- C2 amended: for every chunk and `from_start` flag, `get_mimetype` returns
the weight and tag of the *first* descriptor in declaration order (among the
descriptors admitted by the `from_start` gate) whose magic matches the chunk;
weight is reported but never consulted for the selection, so a weight-1
descriptor declared earlier beats the weight-2 DMG descriptor when both
match. -/
theorem C2_amended_first_match (chunk : List Nat) (start : Bool) :
    get_mimetype chunk start =
      match MIME_TYPE_HANDLERS.find?
          (fun h => handlerGated start h && handlerMatches chunk h) with
      | some h => (h.weight, some h.name)
      | none => (0, none) :=
  getMimetypeGo_eq_find chunk start MIME_TYPE_HANDLERS

set_option maxRecDepth 100000 in
/-- C3 counterexample: a 512-byte head chunk beginning with `koly` is
classified `(2, application/x-apple-diskimage)` with `from_start = true`:
the negative-offset DMG descriptor *is* evaluated on head chunks (Python's
negative slice indexes from the end of the chunk), contradicting the claim
that negative-offset descriptors are evaluated only when `from_start` is
false. -/
theorem C3_counterexample :
    kolyHeadChunk.length = 512 ∧
    get_mimetype kolyHeadChunk true = (2, some "application/x-apple-diskimage") := by
  refine ⟨by decide, by decide⟩

/-- C3 amended: descriptors with non-negative offsets are evaluated only on
head chunks — on a tail chunk (`from_start = false`) only the negative-offset
DMG descriptor is consulted, so tail classification is `(2,
application/x-apple-diskimage)` iff the DMG magic matches and `(0, none)`
otherwise; negative-offset descriptors are additionally evaluated on head
chunks, against positions relative to the end of the chunk.  The S5 outcome
holds: for the 100 KiB blob whose last 512 bytes begin with `koly`, the tail
chunk classifies as `(2, application/x-apple-diskimage)` and the head chunk
(all zeros) yields no tag. -/
theorem C3_amended_tail_gating :
    (∀ chunk : List Nat,
      get_mimetype chunk false =
        if handlerMatches chunk ⟨"application/x-apple-diskimage", 2, -512, [kolyBytes]⟩
        then (2, some "application/x-apple-diskimage") else (0, none)) ∧
    get_mimetype s5tail false = (2, some "application/x-apple-diskimage") ∧
    get_mimetype s5head true = (0, none) := by
  refine ⟨fun chunk => getMimetype_tail_eq chunk, ?_, ?_⟩
  · rw [s5tail_eq]
    exact s5tail_class
  · rw [s5head_eq]
    exact s5head_class

/-- C4 (code_bug): the claim (and spec §4.5/§8.3) says the after window is
`min(WINDOW_SIZE, N − offset − len(match))` bytes beginning at
`offset + len(match)`.  In `generate_sample` the match length is never used
for the after window: `after_offset = offset + WINDOW_SIZE` in the unclamped
branch (and `after_offset = target_sz - offset` in the clamped branch), so on
a 100-byte file with a match of length 5 at offset 10 the code reads bytes
[30, 50) where the claim prescribes bytes [15, 35). -/
theorem C4_after_window_ignores_match_length :
    generate_sample (List.range 100) 10 5 =
      { before := List.range' 0 10, finding := List.range' 10 5,
        after := List.range' 30 20 } ∧
    specAfterWindow (List.range 100) 10 5 = List.range' 15 20 ∧
    (generate_sample (List.range 100) 10 5).after
        ≠ specAfterWindow (List.range 100) 10 5 := by
  refine ⟨by decide, by decide, by decide⟩

/-- C5 (code_bug): the claim says the exit code is 100 with at least one
unsuppressed Finding in both output modes.  `main` computes `exit_code` but
only the `--pretty` branch calls `sys.exit(exit_code)`; the default SARIF
branch prints the document and returns, so the process exits 0 even with an
unsuppressed finding. -/
theorem C5_sarif_mode_always_exits_zero :
    computeExitCode [findingUnsuppressed] = 100 ∧
    computeExitCode [findingSuppressed] = 0 ∧
    mainExitCode true [findingUnsuppressed] = 100 ∧
    mainExitCode true [findingSuppressed] = 0 ∧
    mainExitCode false [findingUnsuppressed] = 0 := by
  refine ⟨by decide, by decide, by decide, by decide, by decide⟩

/-- C6 (code_bug): the claim says a metadata job failing with a file-access
error under `skip_on_corrupt` is swallowed with a warning and all other
results are still returned.  The swallow branch of `finder` has no
`continue`, so the loop falls through to `entries.append(result)`: if the
failing job is the first completion, the local `result` is unbound and the
scan aborts with `NameError`; otherwise the previous job's result is
appended a second time.  (No warning is logged in either case.)  With the
flag unset the error propagates, as claimed. -/
theorem C6_swallow_appends_stale_result :
    finder true [.error (), .ok mEntry1] = .error .nameError ∧
    finder true [.ok mEntry1, .error (), .ok mEntry2]
        = .ok [mEntry1, mEntry1, mEntry2] ∧
    finder false [.ok mEntry1, .error ()] = .error .fileAccess := by
  refine ⟨rfl, rfl, rfl⟩

lemma extractReads_flatten (file : List Nat) :
    ∀ remaining pos, pos + remaining ≤ file.length →
      (extractReads file pos remaining).flatten = pyReadAt file pos remaining := by
  intro remaining
  induction remaining using Nat.strong_induction_on with
  | _ remaining ih =>
    intro pos hle
    rw [extractReads]
    by_cases h0 : remaining = 0
    · subst h0
      simp [pyReadAt]
    · rw [if_neg h0]
      by_cases hlt : remaining < CHUNK_SIZE
      · rw [if_pos hlt]
        simp
      · rw [if_neg hlt]
        have hchunk : CHUNK_SIZE ≤ remaining := Nat.le_of_not_lt hlt
        have hpos : pos + CHUNK_SIZE ≤ file.length := by omega
        have hmin : min file.length (pos + CHUNK_SIZE) = pos + CHUNK_SIZE :=
          Nat.min_eq_right hpos
        have ihh := ih (remaining - CHUNK_SIZE)
          (Nat.sub_lt (Nat.pos_of_ne_zero h0) (by decide))
          (pos + CHUNK_SIZE) (by omega)
        rw [List.flatten_cons, hmin, ihh]
        rw [pyReadAt, pyReadAt, pyReadAt]
        rw [show pos + CHUNK_SIZE = pos + CHUNK_SIZE from rfl, ← List.drop_drop,
          ← List.take_add]
        rw [Nat.add_sub_cancel' hchunk]

/-- C7 counterexample: in `xarDemoFile` the header declares
`toc_length_compressed = 2` and `toc_length_uncompressed = 4`; the claim says
the extractor reads exactly `toc_comp_len` (= 2) bytes after the 28-byte
header, but `XAR.__init__` reads `fin.read(self._header.toc_length_uncompressed)`
(= 4 bytes, here `[9, 8, 7, 6]`). -/
theorem C7_counterexample :
    xarInitRead xarDemoFile = .ok (xarDemoHeader, [9, 8, 7, 6]) ∧
    pyReadAt xarDemoFile XAR_HEADER_SZ xarDemoHeader.toc_length_compressed = [9, 8] ∧
    ([9, 8, 7, 6] : List Nat) ≠ [9, 8] := by
  refine ⟨rfl, by decide, by decide⟩

/-- C7 amended: `XAR.__init__` seeks to the offset given by the header's
`size` field (28 in a well-formed archive) and reads
`toc_length_uncompressed` — not `toc_length_compressed` — bytes, which it
zlib-inflates to obtain the ToC.  The extract part is as the claim states:
for a file entry with data length `L` and offset `O`, the loop's chunked
reads concatenate to exactly the `L` bytes at absolute position
`hdr.size + toc_comp_len + O`, and they are piped through the streaming zlib
decompressor (wbits = MAX_WBITS | 32) iff the entry's encoding style is
`application/x-gzip`, else copied verbatim. -/
theorem C7_amended_toc_and_extract (file : List Nat) (hdr : XARHeader)
    (raw : List Nat) (hinit : xarInitRead file = .ok (hdr, raw)) :
    raw = pyReadAt file hdr.size hdr.toc_length_uncompressed ∧
    ∀ (σ : Type) (D : σ → List Nat → σ × List Nat) (d0 : σ) (L O : Nat),
      hdr.size + hdr.toc_length_compressed + O + L ≤ file.length →
      (extractReads file (hdr.size + hdr.toc_length_compressed + O) L).flatten
          = pyReadAt file (hdr.size + hdr.toc_length_compressed + O) L ∧
      xarExtractEntry D d0 file hdr (some "application/x-gzip") L O
          = streamDecomp D d0
              (extractReads file (hdr.size + hdr.toc_length_compressed + O) L) ∧
      xarExtractEntry D d0 file hdr none L O
          = pyReadAt file (hdr.size + hdr.toc_length_compressed + O) L := by
  constructor
  · rw [xarInitRead] at hinit
    by_cases h1 : (pyReadAt file 0 4 != xarMagic) = true
    · rw [if_pos h1] at hinit
      exact Except.noConfusion hinit
    · rw [if_neg h1] at hinit
      by_cases h2 : file.length < XAR_HEADER_SZ
      · rw [if_pos h2] at hinit
        exact Except.noConfusion hinit
      · rw [if_neg h2] at hinit
        have := Except.ok.inj hinit
        have h3 : parseXARHeader file = hdr := congrArg Prod.fst this
        have h4 := congrArg Prod.snd this
        simp only at h4
        rw [← h4, h3]
  · intro σ D d0 L O hbound
    refine ⟨extractReads_flatten file L _ (by omega), ?_, ?_⟩
    · simp only [xarExtractEntry]
      rw [if_pos (by decide)]
    · simp only [xarExtractEntry]
      rw [if_neg (by decide)]
      exact extractReads_flatten file L _ (by omega)

/-- Witness for C7 at `xarDemoFile` with the identity codec, `L = 2`,
`O = 0`. -/
theorem C7_amended_toc_and_extract_witness :
    xarInitRead xarDemoFile = .ok (xarDemoHeader, [9, 8, 7, 6]) ∧
    xarDemoHeader.size + xarDemoHeader.toc_length_compressed + 0 + 2
        ≤ xarDemoFile.length ∧
    xarExtractEntry (fun (s : Unit) c => (s, c)) () xarDemoFile xarDemoHeader
        none 2 0
      = pyReadAt xarDemoFile
          (xarDemoHeader.size + xarDemoHeader.toc_length_compressed + 0) 2 :=
  ⟨rfl, by decide,
    ((C7_amended_toc_and_extract xarDemoFile xarDemoHeader [9, 8, 7, 6]
        rfl).2 Unit (fun s c => (s, c)) () 2 0 (by decide)).2.2⟩

lemma entryMatches_eq (research : String → String → Bool)
    (f : FindingEntry) (e : IgnoreEntry) :
    entryMatches research f e =
      ((shapePathB f e && constraintsB f e)
        || (shapePatternB research f e && constraintsB f e)
        || (shapeHashB f e && constraintsB f e)) := by
  unfold entryMatches
  cases shapePathB f e <;> cases shapePatternB research f e
    <;> cases shapeHashB f e <;> cases constraintsB f e <;> rfl

lemma by_path_eq (f : FindingEntry) (e : IgnoreEntry) :
    by_path f e = (shapePathB f e && constraintsB f e) := by
  unfold by_path shapePathB constraintsB
  by_cases h1 : pyTruthyStr e.path = true
  · by_cases h2 : (e.path == some f.path) = true
    · by_cases h3 : f.source.module = e.module
      · rw [← h3]
        simp [h1, h2]
      · have hne : (f.source.module != e.module) = true := bne_iff_ne.mpr h3
        have hne2 : (e.module == f.source.module) = false :=
          beq_eq_false_iff_ne.mpr (Ne.symm h3)
        simp [h1, h2, hne, hne2]
    · have h2' : (e.path == some f.path) = false := Bool.eq_false_iff.mpr h2
      simp [h1, h2']
  · have h1' : pyTruthyStr e.path = false := Bool.eq_false_iff.mpr h1
    simp [h1']

lemma by_hash_eq (f : FindingEntry) (e : IgnoreEntry) :
    by_hash f e = (shapeHashB f e && constraintsB f e) := by
  unfold by_hash shapeHashB constraintsB
  by_cases h1 : pyTruthyStr e.md5 = true
  · by_cases h2 : (e.md5 == some f.md5) = true
    · by_cases h3 : f.source.module = e.module
      · rw [← h3]
        simp [h1, h2]
      · have hne : (f.source.module != e.module) = true := bne_iff_ne.mpr h3
        have hne2 : (e.module == f.source.module) = false :=
          beq_eq_false_iff_ne.mpr (Ne.symm h3)
        simp [h1, h2, hne, hne2]
    · have h2' : (e.md5 == some f.md5) = false := Bool.eq_false_iff.mpr h2
      simp [h1, h2']
  · have h1' : pyTruthyStr e.md5 = false := Bool.eq_false_iff.mpr h1
    simp [h1']

lemma by_pattern_total (research : String → String → Bool)
    (f : FindingEntry) (e : IgnoreEntry) :
    by_pattern (totalSearch research) f e
      = .ok (shapePatternB research f e && constraintsB f e) := by
  unfold by_pattern shapePatternB constraintsB totalSearch
  by_cases h1 : pyTruthyStr e.pattern = true
  · by_cases h2 : research (e.pattern.getD "") f.path = true
    · by_cases h3 : e.module = f.source.module
      · rw [h3]
        by_cases h4 : e.references = []
        · by_cases h5 : e.offset = none
          · simp [h1, h2, h4, h5]
          · simp [h1, h2, h4, h5]
        · simp [h1, h2, h4]
      · have hne : (e.module != f.source.module) = true := bne_iff_ne.mpr h3
        have hne2 : (e.module == f.source.module) = false := beq_eq_false_iff_ne.mpr h3
        simp [h1, h2, hne, hne2]
    · have h2' : research (e.pattern.getD "") f.path = false := Bool.eq_false_iff.mpr h2
      simp [h1, h2']
  · have h1' : pyTruthyStr e.pattern = false := Bool.eq_false_iff.mpr h1
    simp [h1']

lemma processFinding_total (research : String → String → Bool)
    (f : FindingEntry) (es : List IgnoreEntry) :
    processFinding (totalSearch research) f es = .ok (annotate research es f) := by
  induction es with
  | nil => rfl
  | cons e es ih =>
      by_cases hp : (shapePathB f e && constraintsB f e) = true
      · have hm : entryMatches research f e = true := by
          rw [entryMatches_eq]
          simp [hp]
        rw [annotate, List.find?_cons_of_pos _ hm, processFinding, by_path_eq, hp]
        rw [if_pos rfl]
      · by_cases hpat : (shapePatternB research f e && constraintsB f e) = true
        · have hm : entryMatches research f e = true := by
            rw [entryMatches_eq]
            simp [hpat]
          rw [annotate, List.find?_cons_of_pos _ hm, processFinding, by_path_eq,
            by_pattern_total, hpat]
          have hp' : (shapePathB f e && constraintsB f e) = false :=
            Bool.eq_false_iff.mpr hp
          rw [hp', if_neg (by simp)]
        · by_cases hh : (shapeHashB f e && constraintsB f e) = true
          · have hm : entryMatches research f e = true := by
              rw [entryMatches_eq]
              simp [hh]
            rw [annotate, List.find?_cons_of_pos _ hm, processFinding, by_path_eq,
              by_pattern_total, by_hash_eq]
            have hp' : (shapePathB f e && constraintsB f e) = false :=
              Bool.eq_false_iff.mpr hp
            have hpat' : (shapePatternB research f e && constraintsB f e) = false :=
              Bool.eq_false_iff.mpr hpat
            rw [hp', hpat', hh, if_neg (by simp)]
            rfl
          · have hp' : (shapePathB f e && constraintsB f e) = false :=
              Bool.eq_false_iff.mpr hp
            have hpat' : (shapePatternB research f e && constraintsB f e) = false :=
              Bool.eq_false_iff.mpr hpat
            have hh' : (shapeHashB f e && constraintsB f e) = false :=
              Bool.eq_false_iff.mpr hh
            have hm : entryMatches research f e = false := by
              rw [entryMatches_eq, hp', hpat', hh']
              rfl
            rw [annotate, List.find?_cons_of_neg _ (by simp [hm]), processFinding,
              by_path_eq, by_pattern_total, by_hash_eq, hp', hpat', hh',
              if_neg (by simp)]
            show processFinding (totalSearch research) f es = _
            rw [ih, annotate]

/-- C8 counterexample: the ignore entry `entryHashRefOffsetZero` has
`offset = 0` and `references = ["R"]` (accepted by validation because
`offset=0` is falsy in the `offset_and_refernces_both_set` validator).  The
finding sits at offset 5, so under the claim ("if the entry's offset is set,
it equals the finding's offset") the entry must not match; the code takes the
references branch first and never consults the offset, so the finding is
marked Ignored. -/
theorem C8_counterexample :
    validateEntry rawHashRefOffsetZero = .ok entryHashRefOffsetZero ∧
    entryHashRefOffsetZero.offset = some 0 ∧
    findingUnsuppressed.location.offset = 5 ∧
    process (totalSearch fun _ _ => false)
        [findingUnsuppressed] [entryHashRefOffsetZero]
      = .ok [{ findingUnsuppressed with ignore := some ⟨true, "demo"⟩ }] := by
  refine ⟨rfl, rfl, rfl, rfl⟩

/-- C8 amended: the Suppressor walks the entries in list order; an entry
matches iff one of its set shapes matches (path equality, regex search, MD5
equality, evaluated in that fixed order) *and* the constraints align: the
entry's module equals the finding's module, and — if the entry's references
set is non-empty — the finding's rule reference is a member of it (the
offset constraint is then not consulted); only when references is empty and
the entry's offset is set must it equal the finding's offset.  The first
matching entry sets Ignored with its reason and later entries are not
considered. -/
theorem C8_amended_first_match_semantics (research : String → String → Bool)
    (fs : List FindingEntry) (es : List IgnoreEntry) :
    process (totalSearch research) fs es = .ok (fs.map (annotate research es)) := by
  induction fs with
  | nil => rfl
  | cons f fs ih =>
      rw [process, processFinding_total, ih, List.map_cons]

lemma processFinding_frame (research : String → String → Except Unit Bool)
    (f : FindingEntry) (es : List IgnoreEntry) (f' : FindingEntry)
    (h : processFinding research f es = .ok f') :
    f' = f ∨ ∃ r, f' = { f with ignore := some ⟨true, r⟩ } := by
  induction es with
  | nil =>
      left
      exact (Except.ok.inj h).symm
  | cons e es ih =>
      rw [processFinding] at h
      by_cases hp : by_path f e = true
      · rw [if_pos hp] at h
        right
        exact ⟨e.reason, (Except.ok.inj h).symm⟩
      · rw [if_neg hp] at h
        cases hpat : by_pattern research f e with
        | error u =>
            rw [hpat] at h
            exact Except.noConfusion h
        | ok b =>
            rw [hpat] at h
            cases b with
            | true =>
                right
                exact ⟨e.reason, (Except.ok.inj h).symm⟩
            | false =>
                by_cases hh : by_hash f e = true
                · rw [if_pos hh] at h
                  right
                  exact ⟨e.reason, (Except.ok.inj h).symm⟩
                · rw [if_neg hh] at h
                  exact ih h

/-- C9 (confirmed): for every findings list, ignore list and regex oracle, a
successful `process` run returns a list of the same length, in the same
order, in which every element agrees with its input finding on `path`,
`md5`, `confidence`, `location`, `sample` and `source`, and differs at most
by the `ignore` attribute being set to an `Ignored {reason}` record. -/
theorem C9_process_frame (research : String → String → Except Unit Bool)
    (fs : List FindingEntry) (es : List IgnoreEntry) (out : List FindingEntry)
    (h : process research fs es = .ok out) :
    out.length = fs.length ∧
    ∀ i (hi : i < fs.length) (ho : i < out.length),
      (out.get ⟨i, ho⟩).path = (fs.get ⟨i, hi⟩).path ∧
      (out.get ⟨i, ho⟩).md5 = (fs.get ⟨i, hi⟩).md5 ∧
      (out.get ⟨i, ho⟩).confidence = (fs.get ⟨i, hi⟩).confidence ∧
      (out.get ⟨i, ho⟩).location = (fs.get ⟨i, hi⟩).location ∧
      (out.get ⟨i, ho⟩).sample = (fs.get ⟨i, hi⟩).sample ∧
      (out.get ⟨i, ho⟩).source = (fs.get ⟨i, hi⟩).source ∧
      ((out.get ⟨i, ho⟩) = fs.get ⟨i, hi⟩ ∨
        ∃ r, (out.get ⟨i, ho⟩) = { fs.get ⟨i, hi⟩ with ignore := some ⟨true, r⟩ }) := by
  induction fs generalizing out with
  | nil =>
      rw [process] at h
      have hout : out = [] := (Except.ok.inj h).symm
      subst hout
      exact ⟨rfl, fun i hi => absurd hi (Nat.not_lt_zero i)⟩
  | cons f fs ih =>
      rw [process] at h
      cases hf : processFinding research f es with
      | error u =>
          rw [hf] at h
          exact Except.noConfusion h
      | ok f' =>
          rw [hf] at h
          cases hr : process research fs es with
          | error u =>
              rw [hr] at h
              exact Except.noConfusion h
          | ok rest =>
              rw [hr] at h
              have hout : out = f' :: rest := (Except.ok.inj h).symm
              subst hout
              obtain ⟨hlen, hfr⟩ := ih rest hr
              refine ⟨by simp [hlen], ?_⟩
              intro i hi ho
              cases i with
              | zero =>
                  simp only [List.get]
                  rcases processFinding_frame research f es f' hf with h1 | ⟨r, h1⟩
                  · subst h1
                    exact ⟨rfl, rfl, rfl, rfl, rfl, rfl, Or.inl rfl⟩
                  · subst h1
                    exact ⟨rfl, rfl, rfl, rfl, rfl, rfl, Or.inr ⟨r, rfl⟩⟩
              | succ n =>
                  simp only [List.get]
                  exact hfr n (by simpa using hi) (by simpa using ho)

/-- Witness for C9: a concrete successful run. -/
theorem C9_process_frame_witness :
    process (fun _ _ => Except.ok false) [findingUnsuppressed] []
        = .ok [findingUnsuppressed] ∧
    ([findingUnsuppressed] : List FindingEntry).length
        = ([findingUnsuppressed] : List FindingEntry).length :=
  ⟨rfl,
    (C9_process_frame (fun _ _ => Except.ok false) [findingUnsuppressed] []
      [findingUnsuppressed] rfl).1⟩

/-- C10 (code_bug): of the four load-time rejections the claim lists, only
"non-zero offset combined with non-empty references" is enforced.  The
`exclusive_path_or_pattern` validator runs on `path`, the first declared
field, so pydantic's `values` dict is still empty and `values.get("pattern")`
is always `None`: an entry with both `path` and `pattern`, and an entry with
none of `path`/`pattern`/`md5`, both load.  `module` has default `"rules"`,
so an entry that sets `offset` without `module` loads too.  And `offset = 0`
is falsy, so it combines with non-empty `references` without error. -/
theorem C10_load_time_invariants_not_enforced :
    validateEntry rawPathAndPattern
        = .ok ⟨some "/tmp/a", some "x", "r", none, "rules", [], none⟩ ∧
    validateEntry rawNoShape = .ok ⟨none, none, "r", none, "rules", [], none⟩ ∧
    validateEntry rawOffsetNoModule
        = .ok ⟨none, none, "r", some "h", "rules", [], some 3⟩ ∧
    validateEntry rawOffsetAndRefs
        = .error "An offset cannot be combined with a list of references." ∧
    validateEntry rawHashRefOffsetZero = .ok entryHashRefOffsetZero := by
  refine ⟨rfl, rfl, rfl, rfl, rfl⟩

end Stacs
